import Mathlib

/-!
Verification of the process-invocation and result-interpretation layer of an
ast-grep MCP server written in Rust.  The embedding models:

* `src/command.rs` — the exit-code/stdout classification done by `run_command`
  and the argument assembly done by `run_ast_grep`;
* `src/format.rs` — `format_matches_as_text`;
* `src/server.rs` — the four tool operations `dump_syntax_tree`,
  `test_match_code_rule`, `find_code` and `find_code_by_rule`.

The external child process is modelled by a `ProcessOutput` record (its two
buffered streams and exit status) that each operation receives as a
parameter.  The serde_json library at the boundary is modelled by an
executable JSON value type together with a parser (`from_str`) and the
pretty printer (`to_string_pretty`) that serde_json implements.  All string
manipulation is modelled over `String.data` so that every definition
evaluates inside the kernel.
-/

/-! ## Rust string primitives, modelled over the character list -/

/-- `char::is_whitespace`, restricted to the ASCII whitespace characters
(space, tab, line feed, carriage return) that this program's data can
contain. -/
def rust_is_whitespace (c : Char) : Bool :=
  c = ' ' || c = '\t' || c = '\n' || c = '\r'

/-- Rust `str::trim`: remove leading and trailing whitespace. -/
def rust_trim (s : String) : String :=
  ⟨((s.data.dropWhile rust_is_whitespace).reverse.dropWhile rust_is_whitespace).reverse⟩

/-- Rust `str::trim_end`: remove trailing whitespace only. -/
def rust_trim_end (s : String) : String :=
  ⟨(s.data.reverse.dropWhile rust_is_whitespace).reverse⟩

/-- Rust `str::is_empty`. -/
def rust_is_empty (s : String) : Bool :=
  s.data.isEmpty

/-- Rust `str::starts_with(char)`. -/
def rust_starts_with (s : String) (c : Char) : Bool :=
  match s.data with
  | [] => false
  | d :: _ => d = c

/-- Rust `Vec::<String>::join(sep)` over rendered blocks. -/
def join_sep (sep : String) : List String → String
  | [] => ""
  | [b] => b
  | b :: bs => b ++ sep ++ join_sep sep bs

/-! ## JSON values (model of `serde_json::Value`) -/

/-- Model of `serde_json::Value` restricted to the shapes exercised by this
program: null, booleans, integer numbers, strings, arrays and objects (an
object is a list of key/value pairs; lookup takes the first binding, which
coincides with serde_json's map behaviour because its keys are unique). -/
inductive Json where
  | null : Json
  | bool (b : Bool) : Json
  | num (n : Int) : Json
  | str (s : String) : Json
  | arr (elems : List Json) : Json
  | obj (fields : List (String × Json)) : Json

namespace Json

/-- Structural boolean equality on `Json`. -/
def beq : Json → Json → Bool
  | .null, .null => true
  | .bool a, .bool b => a == b
  | .num a, .num b => a == b
  | .str a, .str b => a == b
  | .arr xs, .arr ys => beqList xs ys
  | .obj xs, .obj ys => beqFields xs ys
  | _, _ => false
where
  beqList : List Json → List Json → Bool
    | [], [] => true
    | x :: xs, y :: ys => beq x y && beqList xs ys
    | _, _ => false
  beqFields : List (String × Json) → List (String × Json) → Bool
    | [], [] => true
    | (k, v) :: xs, (l, w) :: ys => k == l && beq v w && beqFields xs ys
    | _, _ => false

mutual
theorem beq_correct : ∀ a b : Json, beq a b = true → a = b
  | .null, .null, _ => rfl
  | .bool a, .bool b, h => by
      simp only [beq, beq_iff_eq] at h
      exact h ▸ rfl
  | .num a, .num b, h => by
      simp only [beq, beq_iff_eq] at h
      exact h ▸ rfl
  | .str a, .str b, h => by
      simp only [beq, beq_iff_eq] at h
      exact h ▸ rfl
  | .arr xs, .arr ys, h => by
      simp only [beq] at h
      exact congrArg Json.arr (beqList_correct xs ys h)
  | .obj xs, .obj ys, h => by
      simp only [beq] at h
      exact congrArg Json.obj (beqFields_correct xs ys h)

theorem beqList_correct : ∀ xs ys : List Json, beq.beqList xs ys = true → xs = ys
  | [], [], _ => rfl
  | x :: xs, y :: ys, h => by
      simp only [beq.beqList, Bool.and_eq_true] at h
      exact congrArg₂ List.cons (beq_correct x y h.1) (beqList_correct xs ys h.2)

theorem beqFields_correct :
    ∀ xs ys : List (String × Json), beq.beqFields xs ys = true → xs = ys
  | [], [], _ => rfl
  | (k, v) :: xs, (l, w) :: ys, h => by
      simp only [beq.beqFields, Bool.and_eq_true, beq_iff_eq] at h
      have hk : k = l := h.1.1
      have hv : v = w := beq_correct v w h.1.2
      exact hk ▸ hv ▸ congrArg (List.cons (k, v)) (beqFields_correct xs ys h.2)
end

mutual
theorem beq_refl : ∀ a : Json, beq a a = true
  | .null => rfl
  | .bool a => by
      simp only [beq]
      exact beq_self_eq_true a
  | .num a => by
      simp only [beq]
      exact beq_self_eq_true a
  | .str a => by
      simp only [beq]
      exact beq_self_eq_true a
  | .arr xs => by
      simp only [beq]
      exact beqList_refl xs
  | .obj xs => by
      simp only [beq]
      exact beqFields_refl xs

theorem beqList_refl : ∀ xs : List Json, beq.beqList xs xs = true
  | [] => rfl
  | x :: xs => by
      simp only [beq.beqList, Bool.and_eq_true]
      exact ⟨beq_refl x, beqList_refl xs⟩

theorem beqFields_refl : ∀ xs : List (String × Json), beq.beqFields xs xs = true
  | [] => rfl
  | (k, v) :: xs => by
      simp only [beq.beqFields, Bool.and_eq_true]
      exact ⟨⟨beq_self_eq_true k, beq_refl v⟩, beqFields_refl xs⟩
end

instance : DecidableEq Json := fun a b =>
  if h : beq a b = true then
    .isTrue (beq_correct a b h)
  else
    .isFalse (fun he => h (he ▸ beq_refl a))

/-- `Value::get(key)` on an object: the value bound to `key`, if any. -/
def get (j : Json) (key : String) : Option Json :=
  match j with
  | .obj fields => fields.lookup key
  | _ => none

/-- `Value::as_str`. -/
def as_str : Json → Option String
  | .str s => some s
  | _ => none

/-- `Value::as_u64`: the number when it is a non-negative integer. -/
def as_u64 : Json → Option Nat
  | .num n => if 0 ≤ n then some n.toNat else none
  | _ => none

/-- Decimal reference-token interpretation used by JSON pointers for array
indices. -/
def token_to_nat (s : String) : Option Nat :=
  if s.data ≠ [] ∧ s.data.all Char.isDigit then
    some (s.data.foldl (fun n c => n * 10 + (c.toNat - 48)) 0)
  else none

/-- One step of `Value::pointer`: look a reference token up in a value
(object field by name, array element by decimal index). -/
def pointerStep (j : Json) (token : String) : Option Json :=
  match j with
  | .obj fields => fields.lookup token
  | .arr elems => (token_to_nat token).bind fun i => elems.get? i
  | _ => none

/-- Split a character list on `/`, the token separator of JSON pointers. -/
def split_slash : List Char → List String
  | [] => [""]
  | c :: cs =>
    match split_slash cs with
    | [] => []
    | s :: rest => if c = '/' then "" :: s :: rest else (⟨c :: s.data⟩ : String) :: rest

/-- `Value::pointer`: walk a `/`-separated JSON-pointer path.  The empty
pointer returns the value itself; a pointer not starting with `/` returns
`none`. -/
def pointer (j : Json) (ptr : String) : Option Json :=
  match ptr.data with
  | [] => some j
  | '/' :: rest => (split_slash rest).foldlM pointerStep j
  | _ => none

end Json

/-! ## serde_json pretty printer (`to_string_pretty`) -/

/-- `n` spaces, the pretty printer's indentation unit being two of them. -/
def spaces (n : Nat) : String :=
  ⟨List.replicate n ' '⟩

/-- A lowercase hexadecimal digit. -/
def hex_digit (n : Nat) : Char :=
  if n < 10 then Char.ofNat (48 + n) else Char.ofNat (97 + (n - 10))

/-- serde_json's escaping of one character inside a JSON string literal. -/
def escape_char (c : Char) : List Char :=
  if c = '"' then ['\\', '"']
  else if c = '\\' then ['\\', '\\']
  else if c = '\n' then ['\\', 'n']
  else if c = '\t' then ['\\', 't']
  else if c = '\r' then ['\\', 'r']
  else if c.toNat = 8 then ['\\', 'b']
  else if c.toNat = 12 then ['\\', 'f']
  else if c.toNat < 32 then
    ['\\', 'u', '0', '0', hex_digit (c.toNat / 16), hex_digit (c.toNat % 16)]
  else [c]

/-- A JSON string literal: quoted and escaped. -/
def quote_string (s : String) : String :=
  ⟨'"' :: s.data.foldr (fun c acc => escape_char c ++ acc) ['"']⟩

/-- Model of `serde_json::to_string_pretty`'s recursion: two-space
indentation, one element or field per line, `": "` after each key.  `ind` is
the current indentation width. -/
def to_pretty : Nat → Json → String
  | _, .null => "null"
  | _, .bool true => "true"
  | _, .bool false => "false"
  | _, .num n => toString n
  | _, .str s => quote_string s
  | _, .arr [] => "[]"
  | ind, .arr (x :: xs) =>
      "[\n" ++ prettyElems ind (x :: xs) ++ "\n" ++ spaces ind ++ "]"
  | _, .obj [] => "\x7b\x7d"
  | ind, .obj (f :: fs) =>
      "\x7b\n" ++ prettyFields ind (f :: fs) ++ "\n" ++ spaces ind ++ "\x7d"
where
  prettyElems : Nat → List Json → String
    | _, [] => ""
    | ind, [x] => spaces (ind + 2) ++ to_pretty (ind + 2) x
    | ind, x :: y :: xs =>
        spaces (ind + 2) ++ to_pretty (ind + 2) x ++ ",\n" ++ prettyElems ind (y :: xs)
  prettyFields : Nat → List (String × Json) → String
    | _, [] => ""
    | ind, [(k, v)] => spaces (ind + 2) ++ quote_string k ++ ": " ++ to_pretty (ind + 2) v
    | ind, (k, v) :: f :: fs =>
        spaces (ind + 2) ++ quote_string k ++ ": " ++ to_pretty (ind + 2) v ++ ",\n" ++
          prettyFields ind (f :: fs)

/-- `serde_json::to_string_pretty` at top level. -/
def to_string_pretty (j : Json) : String :=
  to_pretty 0 j

/-! ## serde_json parser (`from_str`) -/

/-- Drop JSON insignificant whitespace. -/
def parse_ws (cs : List Char) : List Char :=
  cs.dropWhile fun c => c = ' ' || c = '\t' || c = '\n' || c = '\r'

/-- Parse the body of a JSON string literal after the opening quote,
returning the decoded characters and the input after the closing quote.
`\uXXXX` escapes are not modelled: the parser fails on them, a conservative
restriction of serde_json. -/
def parse_string_body : Nat → List Char → Option (List Char × List Char)
  | 0, _ => none
  | _, [] => none
  | fuel + 1, c :: cs =>
    if c = '"' then some ([], cs)
    else if c = '\\' then
      match cs with
      | [] => none
      | e :: cs2 =>
        let dec : Option Char :=
          if e = '"' then some '"'
          else if e = '\\' then some '\\'
          else if e = '/' then some '/'
          else if e = 'n' then some '\n'
          else if e = 't' then some '\t'
          else if e = 'r' then some '\r'
          else if e = 'b' then some (Char.ofNat 8)
          else if e = 'f' then some (Char.ofNat 12)
          else none
        match dec with
        | none => none
        | some d =>
          match parse_string_body fuel cs2 with
          | some (content, rest) => some (d :: content, rest)
          | none => none
    else if c.toNat < 32 then none
    else
      match parse_string_body fuel cs with
      | some (content, rest) => some (c :: content, rest)
      | none => none

/-- Parse an unsigned JSON integer (no leading zeros); fails on a fraction
or exponent, a conservative restriction of serde_json to the integers this
program's data contains. -/
def parse_nat_digits (cs : List Char) : Option (Nat × List Char) :=
  let digits := cs.takeWhile Char.isDigit
  let rest := cs.dropWhile Char.isDigit
  if digits = [] then none
  else if 1 < digits.length ∧ digits.headD '0' = '0' then none
  else
    match rest with
    | '.' :: _ => none
    | 'e' :: _ => none
    | 'E' :: _ => none
    | _ => some (digits.foldl (fun n c => n * 10 + (c.toNat - 48)) 0, rest)

/-- Parse a JSON number (integer, optionally negated). -/
def parse_number (cs : List Char) : Option (Json × List Char) :=
  match cs with
  | '-' :: ds =>
    match parse_nat_digits ds with
    | some (n, rest) => some (.num (-(n : Int)), rest)
    | none => none
  | ds =>
    match parse_nat_digits ds with
    | some (n, rest) => some (.num (n : Int), rest)
    | none => none

mutual
/-- Parse one JSON value (after skipping leading whitespace), returning it
and the remaining input. -/
def parse_value : Nat → List Char → Option (Json × List Char)
  | 0, _ => none
  | fuel + 1, input =>
    match parse_ws input with
    | [] => none
    | c :: rest =>
      if c = 'n' then
        match rest with
        | 'u' :: 'l' :: 'l' :: r => some (.null, r)
        | _ => none
      else if c = 't' then
        match rest with
        | 'r' :: 'u' :: 'e' :: r => some (.bool true, r)
        | _ => none
      else if c = 'f' then
        match rest with
        | 'a' :: 'l' :: 's' :: 'e' :: r => some (.bool false, r)
        | _ => none
      else if c = '"' then
        match parse_string_body (rest.length + 1) rest with
        | some (content, r) => some (.str ⟨content⟩, r)
        | none => none
      else if c = '[' then
        match parse_ws rest with
        | ']' :: r2 => some (.arr [], r2)
        | r =>
          match parse_elems fuel r with
          | some (xs, r2) => some (.arr xs, r2)
          | none => none
      else if c.toNat = 123 then
        match parse_ws rest with
        | d :: r2 =>
          if d.toNat = 125 then some (.obj [], r2)
          else
            match parse_fields fuel (d :: r2) with
            | some (fs, r3) => some (.obj fs, r3)
            | none => none
        | [] => none
      else if c = '-' || c.isDigit then
        parse_number (c :: rest)
      else none

/-- Parse the comma-separated elements of a non-empty array, consuming the
closing bracket. -/
def parse_elems : Nat → List Char → Option (List Json × List Char)
  | 0, _ => none
  | fuel + 1, input =>
    match parse_value fuel input with
    | none => none
    | some (v, r) =>
      match parse_ws r with
      | ',' :: r2 =>
        match parse_elems fuel r2 with
        | some (vs, r3) => some (v :: vs, r3)
        | none => none
      | ']' :: r2 => some ([v], r2)
      | _ => none

/-- Parse the comma-separated fields of a non-empty object, consuming the
closing brace. -/
def parse_fields : Nat → List Char → Option (List (String × Json) × List Char)
  | 0, _ => none
  | fuel + 1, input =>
    match parse_ws input with
    | '"' :: rest =>
      match parse_string_body (rest.length + 1) rest with
      | none => none
      | some (key, r) =>
        match parse_ws r with
        | ':' :: r2 =>
          match parse_value fuel r2 with
          | none => none
          | some (v, r3) =>
            match parse_ws r3 with
            | ',' :: r4 =>
              match parse_fields fuel r4 with
              | some (fs, r5) => some ((⟨key⟩, v) :: fs, r5)
              | none => none
            | d :: r4 =>
              if d.toNat = 125 then some ([(⟨key⟩, v)], r4) else none
            | [] => none
        | _ => none
    | _ => none
end

/-- Model of `serde_json::from_str::<Value>`: parse one JSON document, then
require only whitespace to remain. -/
def from_str (s : String) : Option Json :=
  match parse_value (s.data.length + 2) s.data with
  | some (v, rest) => if parse_ws rest = [] then some v else none
  | none => none

/-- Model of `serde_json::from_str::<Vec<Value>>`: the document must be an
array. -/
def from_str_vec (s : String) : Option (List Json) :=
  match from_str s with
  | some (.arr xs) => some xs
  | _ => none

/-! ## `src/format.rs` -/

/-- The block built for one match record by the loop body of
`format_matches_as_text` (src/format.rs lines 13-34). -/
def format_block (m : Json) : String :=
  let file_path := ((m.get "file").bind Json.as_str).getD ""
  -- lines are 0-indexed in JSON, convert to 1-indexed
  let start_line := ((m.pointer "/range/start/line").bind Json.as_u64).getD 0 + 1
  let end_line := ((m.pointer "/range/end/line").bind Json.as_u64).getD 0 + 1
  let match_text := rust_trim_end (((m.get "text").bind Json.as_str).getD "")
  let header :=
    if start_line = end_line then
      file_path ++ ":" ++ toString start_line
    else
      file_path ++ ":" ++ toString start_line ++ "-" ++ toString end_line
  header ++ "\n" ++ match_text

/-- `format_matches_as_text` (src/format.rs lines 6-37): render a match
array as blocks `header\ntext` joined by blank lines, with 1-indexed line
numbers. -/
def format_matches_as_text (ms : List Json) : String :=
  if ms.isEmpty then ""
  else join_sep "\n\n" (ms.map format_block)

/-! ## `src/command.rs` -/

/-- The buffered outcome of one child process: the decoded output streams
and the exit status (`none` models termination without an exit code, e.g.
by a signal; `some c` models exiting with code `c`). -/
structure ProcessOutput where
  stdout : String
  stderr : String
  exit_status : Option Int
deriving DecidableEq

/-- `CommandResult` from `src/command.rs`. -/
structure CommandResult where
  stdout : String
  stderr : String
deriving DecidableEq

/-- The outcome of `run_command`'s classification: `Ok(CommandResult)` or
`CommandError::Failed { cmd, code, stderr }`.  (The spawn-time errors
`NotFound`/`Io` happen before any child output exists and are outside the
classification being verified.) -/
inductive RunOutcome where
  | ok (res : CommandResult) : RunOutcome
  | failed (cmd : List String) (code : Int) (stderr : String) : RunOutcome
deriving DecidableEq

/-- The classification tail of `run_command` (src/command.rs lines 73-101):
given the full original argument list and the child's buffered output,
decide between success and `CommandError::Failed`.  `status.success()` is
`exit_status = some 0`; a missing exit code defaults to 1. -/
def run_command (args : List String) (output : ProcessOutput) : RunOutcome :=
  if output.exit_status = some 0 then
    .ok ⟨output.stdout, output.stderr⟩
  else if output.exit_status.getD 1 = 1 ∧
      (rust_is_empty (rust_trim output.stdout) ∨ rust_trim output.stdout = "[]" ∨
        rust_starts_with (rust_trim output.stdout) '[') then
    -- Valid "no matches" cases: empty JSON array or valid JSON with matches
    .ok ⟨output.stdout, output.stderr⟩
  else if output.exit_status.getD 1 = 1 ∧ ¬ args.contains "--json" ∧
      rust_is_empty (rust_trim output.stdout) then
    -- If --json flag is not present, empty stdout is also valid "no matches"
    .ok ⟨output.stdout, output.stderr⟩
  else
    .failed args (output.exit_status.getD 1)
      (if rust_is_empty (rust_trim output.stderr) then "(no error output)"
       else rust_trim output.stderr)

/-- Argument assembly of `run_ast_grep` (src/command.rs lines 104-120):
program name, subcommand, optional `--config <path>`, then the caller's
arguments. -/
def run_ast_grep_args (command : String) (args : List String)
    (config_path : Option String) : List String :=
  ["ast-grep", command] ++
    (match config_path with
     | some path => ["--config", path]
     | none => []) ++ args

/-- `run_ast_grep`: build the final argument list and classify the child's
output with `run_command`. -/
def run_ast_grep (command : String) (args : List String)
    (config_path : Option String) (output : ProcessOutput) : RunOutcome :=
  run_command (run_ast_grep_args command args config_path) output

example :
    run_command ["ast-grep", "run"] ⟨"[]", "", some 1⟩ = .ok ⟨"[]", ""⟩ := by
  decide

example :
    run_command ["ast-grep", "run", "--json"] ⟨"not json", "boom", some 1⟩ =
      .failed ["ast-grep", "run", "--json"] 1 "boom" := by
  decide

example :
    run_command ["ast-grep", "run"] ⟨"oops", "", some 2⟩ =
      .failed ["ast-grep", "run"] 2 "(no error output)" := by
  decide

/-! ## Helper lemmas -/

theorem run_command_ok_eq {args : List String} {output : ProcessOutput}
    {r : CommandResult} (h : run_command args output = .ok r) :
    r = ⟨output.stdout, output.stderr⟩ := by
  unfold run_command at h
  split at h
  · injection h with h; exact h.symm
  · split at h
    · injection h with h; exact h.symm
    · split at h
      · injection h with h; exact h.symm
      · simp at h

/-! ## Claim C1 -/

/-- Spec-side restatement of claim C1's classification rule, written from
the claim's words: exit code 0 is always success; exit code 1 is success
when the trimmed stdout is empty, is exactly `[]`, or begins with `[`; exit
code 1 with empty trimmed stdout and no `--json` flag is success; every
other non-zero exit is a failure carrying the full original argument list,
the exit code and the trimmed stderr, with `(no error output)` substituted
when the trimmed stderr is empty. -/
def run_command_claimed (args : List String) (output : ProcessOutput) : RunOutcome :=
  if output.exit_status.getD 1 = 0 then
    .ok ⟨output.stdout, output.stderr⟩
  else if output.exit_status.getD 1 = 1 ∧
      (rust_is_empty (rust_trim output.stdout) ∨ rust_trim output.stdout = "[]" ∨
        rust_starts_with (rust_trim output.stdout) '[') then
    .ok ⟨output.stdout, output.stderr⟩
  else if output.exit_status.getD 1 = 1 ∧ rust_is_empty (rust_trim output.stdout) ∧
      ¬ args.contains "--json" then
    .ok ⟨output.stdout, output.stderr⟩
  else
    .failed args (output.exit_status.getD 1)
      (if rust_is_empty (rust_trim output.stderr) then "(no error output)"
       else rust_trim output.stderr)

/-- C1: for every child-process result, `run_command` classifies the
outcome exactly as the claim states: exit code 0 always succeeds; exit code
1 succeeds when the trimmed stdout is empty, exactly `[]`, or begins with
`[` (and in particular with empty trimmed stdout and no `--json` flag);
every other non-zero exit fails carrying the full original argument list,
the exit code, and the trimmed stderr with the `(no error output)`
placeholder substituted when the trimmed stderr is empty. -/
theorem run_command_classification_exact (args : List String) (output : ProcessOutput) :
    run_command args output = run_command_claimed args output := by
  obtain ⟨so, se, st⟩ := output
  simp only [run_command, run_command_claimed]
  have hfirst : (st = some 0) ↔ (st.getD 1 = 0) := by
    cases st with
    | none => decide
    | some c => simp
  by_cases h1 : st = some 0
  · rw [if_pos h1, if_pos (hfirst.mp h1)]
  · rw [if_neg h1, if_neg (fun hh => h1 (hfirst.mpr hh))]
    by_cases h2 : st.getD 1 = 1 ∧
        (rust_is_empty (rust_trim so) = true ∨ rust_trim so = "[]" ∨
          rust_starts_with (rust_trim so) '[' = true)
    · rw [if_pos h2, if_pos h2]
    · rw [if_neg h2, if_neg h2]
      by_cases h3 : st.getD 1 = 1 ∧ ¬ args.contains "--json" = true ∧
          rust_is_empty (rust_trim so) = true
      · have h3c : st.getD 1 = 1 ∧ rust_is_empty (rust_trim so) = true ∧
            ¬ args.contains "--json" = true := ⟨h3.1, h3.2.2, h3.2.1⟩
        rw [if_pos h3, if_pos h3c]
      · have h3c : ¬ (st.getD 1 = 1 ∧ rust_is_empty (rust_trim so) = true ∧
            ¬ args.contains "--json" = true) := fun hh => h3 ⟨hh.1, hh.2.2, hh.2.1⟩
        rw [if_neg h3, if_neg h3c]

/-! ## Claim C9 -/

/-- C9: when the child exits with code 1 and the trimmed stdout is empty,
`run_command` classifies the outcome as success for every argument list,
including lists that contain the `--json` flag: the no-`--json` proviso
never changes the classification because empty trimmed stdout is already
accepted unconditionally. -/
theorem run_command_exit1_empty_stdout_ok (args : List String) (output : ProcessOutput)
    (h1 : output.exit_status = some 1)
    (h2 : rust_is_empty (rust_trim output.stdout) = true) :
    run_command args output = .ok ⟨output.stdout, output.stderr⟩ := by
  obtain ⟨so, se, st⟩ := output
  cases h1
  unfold run_command
  rw [if_neg (by decide : ¬ (some (1 : Int) = some 0)), if_pos ⟨rfl, Or.inl h2⟩]

/-- Witness for C9 at a concrete input whose argument list contains
`--json`. -/
theorem run_command_exit1_empty_stdout_ok_witness :
    run_command ["ast-grep", "run", "--json"] ⟨"  \n", "warn", some 1⟩ =
      .ok ⟨"  \n", "warn"⟩ :=
  run_command_exit1_empty_stdout_ok ["ast-grep", "run", "--json"]
    ⟨"  \n", "warn", some 1⟩ rfl (by decide)

/-! ## Claim C10 -/

/-- C10: when the child terminates without an exit code, `run_command`
substitutes exit code 1 before classification — the outcome equals the
outcome for the same streams with exit code 1 — and consequently a
signal-terminated run whose trimmed stdout is empty or begins with `[` is
classified as success. -/
theorem run_command_signal_defaults_to_one (args : List String) (output : ProcessOutput)
    (h : output.exit_status = none) :
    run_command args output =
      run_command args ⟨output.stdout, output.stderr, some 1⟩ ∧
    ((rust_is_empty (rust_trim output.stdout) = true ∨
        rust_starts_with (rust_trim output.stdout) '[' = true) →
      run_command args output = .ok ⟨output.stdout, output.stderr⟩) := by
  obtain ⟨so, se, st⟩ := output
  cases h
  constructor
  · rfl
  · intro hcase
    unfold run_command
    rw [if_neg (by decide : ¬ ((none : Option Int) = some 0))]
    have hc : ((none : Option Int).getD 1 = 1) ∧
        (rust_is_empty (rust_trim so) = true ∨ rust_trim so = "[]" ∨
          rust_starts_with (rust_trim so) '[' = true) := by
      refine ⟨rfl, ?_⟩
      rcases hcase with hempty | hbr
      · exact Or.inl hempty
      · exact Or.inr (Or.inr hbr)
    rw [if_pos hc]

/-- Witness for C10 at a concrete signal-terminated input. -/
theorem run_command_signal_defaults_to_one_witness :
    run_command ["ast-grep", "run"] ⟨"[", "killed", none⟩ =
        run_command ["ast-grep", "run"] ⟨"[", "killed", some 1⟩ ∧
      ((rust_is_empty (rust_trim "[") = true ∨
          rust_starts_with (rust_trim "[") '[' = true) →
        run_command ["ast-grep", "run"] ⟨"[", "killed", none⟩ =
          .ok ⟨"[", "killed"⟩) :=
  run_command_signal_defaults_to_one ["ast-grep", "run"] ⟨"[", "killed", none⟩ rfl

/-! ## Claim C4 -/

/-- Spec-side rendering of one match record, written from claim C4's words:
the header is `file:startLine+1` when the 0-indexed start and end lines are
equal and `file:startLine+1-endLine+1` otherwise; the body is the record's
text with trailing whitespace trimmed; a missing file or text field
defaults to the empty string and a missing range line defaults to 0. -/
def render_match_claimed (m : Json) : String :=
  let file := ((m.get "file").bind Json.as_str).getD ""
  let s := ((m.pointer "/range/start/line").bind Json.as_u64).getD 0
  let e := ((m.pointer "/range/end/line").bind Json.as_u64).getD 0
  let header :=
    if s = e then file ++ ":" ++ toString (s + 1)
    else file ++ ":" ++ toString (s + 1) ++ "-" ++ toString (e + 1)
  header ++ "\n" ++ rust_trim_end (((m.get "text").bind Json.as_str).getD "")

theorem format_block_eq_claimed (m : Json) : format_block m = render_match_claimed m := by
  simp only [format_block, render_match_claimed]
  generalize ((m.pointer "/range/start/line").bind Json.as_u64).getD 0 = a
  generalize ((m.pointer "/range/end/line").bind Json.as_u64).getD 0 = b
  by_cases h : a = b
  · subst h
    rw [if_pos rfl, if_pos rfl]
  · have hc : ¬ (a + 1 = b + 1) := fun hh => h (Nat.add_right_cancel hh)
    rw [if_neg hc, if_neg h]

/-- C4: `format_matches_as_text` yields the empty string on the empty
sequence, renders a single record as claim C4 describes it (header with
1-indexed line numbers, trailing-whitespace-trimmed text, defaults for
missing fields), and joins the blocks of longer sequences with one blank
line between them in input order. -/
theorem format_matches_as_text_renders_blocks :
    format_matches_as_text [] = "" ∧
    (∀ m : Json, format_matches_as_text [m] = render_match_claimed m) ∧
    (∀ (m : Json) (ms : List Json), ms ≠ [] →
      format_matches_as_text (m :: ms) =
        render_match_claimed m ++ "\n\n" ++ format_matches_as_text ms) := by
  refine ⟨rfl, fun m => ?_, fun m ms hne => ?_⟩
  · rw [← format_block_eq_claimed]
    rfl
  · obtain ⟨m2, ms2, rfl⟩ : ∃ m2 ms2, ms = m2 :: ms2 := by
      cases ms with
      | nil => exact absurd rfl hne
      | cons a l => exact ⟨a, l, rfl⟩
    rw [← format_block_eq_claimed]
    rfl

/-- Witness for C4: the join clause applied to a concrete two-record
sequence. -/
theorem format_matches_as_text_renders_blocks_witness :
    format_matches_as_text
        [Json.obj [("file", Json.str "a.py"),
          ("range", Json.obj [("start", Json.obj [("line", Json.num 0)]),
            ("end", Json.obj [("line", Json.num 2)])]),
          ("text", Json.str "def foo():  ")], Json.null] =
      render_match_claimed
          (Json.obj [("file", Json.str "a.py"),
            ("range", Json.obj [("start", Json.obj [("line", Json.num 0)]),
              ("end", Json.obj [("line", Json.num 2)])]),
            ("text", Json.str "def foo():  ")]) ++ "\n\n" ++
        format_matches_as_text [Json.null] :=
  format_matches_as_text_renders_blocks.2.2 _ [Json.null] (by decide)

/-! ## `src/server.rs` -/

/-- Model of `rmcp::ErrorData` as the server constructs it: an error code
and a message. -/
structure McpError where
  code : Int
  message : String
deriving DecidableEq

/-- The outcome of one tool operation: a successful text payload (the one
`Content::text` the server pushes) or an `McpError`. -/
inductive ToolResult where
  | ok (text : String) : ToolResult
  | err (e : McpError) : ToolResult
deriving DecidableEq

/-- Rust `Debug` rendering of a string, as it appears inside
`CommandError::Failed`'s thiserror message (modelled with JSON-style
escaping, which agrees with Rust's escaping on the printable characters
this program handles). -/
def rust_debug_string (s : String) : String :=
  quote_string s

/-- The thiserror display text of `CommandError::Failed`:
`Command {cmd:?} failed with exit code {code}: {stderr}`. -/
def command_error_message (cmd : List String) (code : Int) (stderr : String) : String :=
  "Command [" ++ join_sep ", " (cmd.map rust_debug_string) ++
    "] failed with exit code " ++ toString code ++ ": " ++ stderr

/-- `DumpSyntaxTreeParams` (src/server.rs lines 14-23). -/
structure DumpSyntaxTreeParams where
  code : String
  language : String
  format : String
deriving DecidableEq

/-- `dump_syntax_tree` (src/server.rs lines 97-123): build the
pattern/lang/debug-format invocation, classify the child's streams, and on
success return the trimmed stderr of the child as the payload. -/
def dump_syntax_tree (params : DumpSyntaxTreeParams) (config_path : Option String)
    (output : ProcessOutput) : ToolResult :=
  match run_ast_grep "run"
      ["--pattern", params.code, "--lang", params.language,
        "--debug-query=" ++ params.format] config_path output with
  | .ok result => .ok (rust_trim result.stderr)
  | .failed cmd code stderr => .err ⟨0, command_error_message cmd code stderr⟩

/-- `TestMatchCodeRuleParams` (src/server.rs lines 29-35). -/
structure TestMatchCodeRuleParams where
  code : String
  yaml : String
deriving DecidableEq

/-- The fixed "no matches" message of `test_match_code_rule`, with its
remediation hint about traversal-stop settings. -/
def semantic_empty_message : String :=
  "No matches found for the given code and rule. Try adding `stopBy: end` to your inside/has rule."

/-- `test_match_code_rule` (src/server.rs lines 131-164): run in JSON mode
with an inline rule (the code snippet goes to the child's stdin), parse
stdout as a match array with parse failures degraded to the empty array,
and signal a semantic "no matches" failure when the array is empty. -/
def test_match_code_rule (params : TestMatchCodeRuleParams) (config_path : Option String)
    (output : ProcessOutput) : ToolResult :=
  match run_ast_grep "scan"
      ["--inline-rules", params.yaml, "--json", "--stdin"] config_path output with
  | .failed cmd code stderr => .err ⟨0, command_error_message cmd code stderr⟩
  | .ok result =>
    if ((from_str_vec result.stdout).getD []).isEmpty then
      .err ⟨-32603, semantic_empty_message⟩
    else
      .ok (to_string_pretty (.arr ((from_str_vec result.stdout).getD [])))

/-- `FindCodeParams` (src/server.rs lines 37-52). -/
structure FindCodeParams where
  project_folder : String
  pattern : String
  language : String
  max_results : Int
  output_format : String
deriving DecidableEq

/-- `FindCodeByRuleParams` (src/server.rs lines 58-70). -/
structure FindCodeByRuleParams where
  project_folder : String
  yaml : String
  max_results : Int
  output_format : String
deriving DecidableEq

/-- The InvalidParams message of the two search operations. -/
def invalid_output_format_message (fmt : String) : String :=
  "Invalid output_format: " ++ fmt ++ ". Must be 'text' or 'json'."

/-- The stdout-to-match-array step shared by `find_code` (src/server.rs
lines 229-234) and `find_code_by_rule` (lines 318-323): trim stdout; an
empty trimmed stdout or a parse failure yields the empty array. -/
def parse_stdout_matches (stdout : String) : List Json :=
  if rust_is_empty (rust_trim stdout) then []
  else (from_str_vec (rust_trim stdout)).getD []

/-- The truncation step shared by the two search operations (src/server.rs
lines 236-241 and 325-330): with a positive cap and more matches than the
cap, keep the first `cap` records. -/
def truncate_matches (max_results : Int) (ms : List Json) : List Json :=
  if max_results > 0 ∧ ms.length > max_results.toNat then
    ms.take max_results.toNat
  else ms

/-- The header line of textual search output (src/server.rs lines 248-251
and 337-340). -/
def search_header (max_results : Int) (total shown : Nat) : String :=
  if max_results > 0 ∧ total > max_results.toNat then
    "Found " ++ toString total ++ " matches (showing first " ++
      toString max_results ++ " of " ++ toString total ++ ")"
  else
    "Found " ++ toString shown ++ " matches"

/-- The output-format selection and rendering step shared by the two
search operations (src/server.rs lines 243-256 and 332-345). -/
def search_post_process (max_results : Int) (output_format : String)
    (ms : List Json) : ToolResult :=
  if output_format = "text" then
    if (truncate_matches max_results ms).isEmpty then
      .ok "No matches found"
    else
      .ok (search_header max_results ms.length (truncate_matches max_results ms).length ++
        ":\n\n" ++ format_matches_as_text (truncate_matches max_results ms))
  else
    .ok (to_string_pretty (.arr (truncate_matches max_results ms)))

/-- The argument vector built by `find_code` (src/server.rs lines
208-214): pattern, optional language flag, `--json`, project folder last. -/
def find_code_args (params : FindCodeParams) : List String :=
  ["--pattern", params.pattern] ++
    (if rust_is_empty params.language then [] else ["--lang", params.language]) ++
    ["--json", params.project_folder]

/-- `find_code` (src/server.rs lines 196-257).  The second component of
the result records the argument lists handed to the Process Invoker, so
that "no process is spawned" is expressible. -/
def find_code (params : FindCodeParams) (config_path : Option String)
    (output : ProcessOutput) : ToolResult × List (List String) :=
  if params.output_format ≠ "text" ∧ params.output_format ≠ "json" then
    (.err ⟨-32602, invalid_output_format_message params.output_format⟩, [])
  else
    match run_command (run_ast_grep_args "run" (find_code_args params) config_path) output with
    | .failed cmd code stderr =>
      (.err ⟨0, command_error_message cmd code stderr⟩,
        [run_ast_grep_args "run" (find_code_args params) config_path])
    | .ok result =>
      (search_post_process params.max_results params.output_format
          (parse_stdout_matches result.stdout),
        [run_ast_grep_args "run" (find_code_args params) config_path])

/-- The argument vector built by `find_code_by_rule` (src/server.rs line
303): inline rule, `--json`, project folder last. -/
def find_code_by_rule_args (params : FindCodeByRuleParams) : List String :=
  ["--inline-rules", params.yaml, "--json", params.project_folder]

/-- `find_code_by_rule` (src/server.rs lines 291-346), with the same
invocation-recording second component as `find_code`. -/
def find_code_by_rule (params : FindCodeByRuleParams) (config_path : Option String)
    (output : ProcessOutput) : ToolResult × List (List String) :=
  if params.output_format ≠ "text" ∧ params.output_format ≠ "json" then
    (.err ⟨-32602, invalid_output_format_message params.output_format⟩, [])
  else
    match run_command (run_ast_grep_args "scan" (find_code_by_rule_args params) config_path) output with
    | .failed cmd code stderr =>
      (.err ⟨0, command_error_message cmd code stderr⟩,
        [run_ast_grep_args "scan" (find_code_by_rule_args params) config_path])
    | .ok result =>
      (search_post_process params.max_results params.output_format
          (parse_stdout_matches result.stdout),
        [run_ast_grep_args "scan" (find_code_by_rule_args params) config_path])

/-! ## Claim C3 -/

/-- C3: a `find_code` or `find_code_by_rule` call whose output format is
neither `text` nor `json` returns an InvalidParams error (code -32602) and
records no process invocation: the Process Invoker is never called. -/
theorem invalid_output_format_rejected_before_spawn
    (pf : FindCodeParams) (pr : FindCodeByRuleParams) (cfg : Option String)
    (o1 o2 : ProcessOutput)
    (h1 : pf.output_format ≠ "text") (h2 : pf.output_format ≠ "json")
    (h3 : pr.output_format ≠ "text") (h4 : pr.output_format ≠ "json") :
    find_code pf cfg o1 =
      (.err ⟨-32602, invalid_output_format_message pf.output_format⟩, []) ∧
    find_code_by_rule pr cfg o2 =
      (.err ⟨-32602, invalid_output_format_message pr.output_format⟩, []) := by
  constructor
  · unfold find_code
    rw [if_pos ⟨h1, h2⟩]
  · unfold find_code_by_rule
    rw [if_pos ⟨h3, h4⟩]

/-- Witness for C3 at `output_format = "xml"`. -/
theorem invalid_output_format_rejected_before_spawn_witness :
    find_code ⟨"/p", "def $NAME", "", 0, "xml"⟩ none ⟨"", "", some 0⟩ =
      (.err ⟨-32602, invalid_output_format_message "xml"⟩, []) ∧
    find_code_by_rule ⟨"/p", "id: x", 0, "xml"⟩ none ⟨"", "", some 0⟩ =
      (.err ⟨-32602, invalid_output_format_message "xml"⟩, []) :=
  invalid_output_format_rejected_before_spawn
    ⟨"/p", "def $NAME", "", 0, "xml"⟩ ⟨"/p", "id: x", 0, "xml"⟩ none
    ⟨"", "", some 0⟩ ⟨"", "", some 0⟩
    (by decide) (by decide) (by decide) (by decide)

/-! ## Claim C5 -/

theorem run_ast_grep_ok_eq {command : String} {args : List String}
    {cfg : Option String} {output : ProcessOutput} {r : CommandResult}
    (h : run_ast_grep command args cfg output = .ok r) :
    r = ⟨output.stdout, output.stderr⟩ := by
  unfold run_ast_grep at h
  exact run_command_ok_eq h

theorem dump_syntax_tree_eq_ok (params : DumpSyntaxTreeParams) (cfg : Option String)
    (output : ProcessOutput) (r : CommandResult)
    (hro : run_ast_grep "run" ["--pattern", params.code, "--lang", params.language,
      "--debug-query=" ++ params.format] cfg output = .ok r) :
    dump_syntax_tree params cfg output = .ok (rust_trim r.stderr) := by
  unfold dump_syntax_tree
  rw [hro]

theorem dump_syntax_tree_eq_failed (params : DumpSyntaxTreeParams) (cfg : Option String)
    (output : ProcessOutput) (cmd : List String) (code : Int) (stderr : String)
    (hro : run_ast_grep "run" ["--pattern", params.code, "--lang", params.language,
      "--debug-query=" ++ params.format] cfg output = .failed cmd code stderr) :
    dump_syntax_tree params cfg output = .err ⟨0, command_error_message cmd code stderr⟩ := by
  unfold dump_syntax_tree
  rw [hro]

/-- C5: every successful `dump_syntax_tree` call returns the trimmed
stderr stream of the underlying invocation as its payload (never the
stdout stream), while success of the call is still decided by the
classifier's exit-code/stdout rule. -/
theorem dump_syntax_tree_payload_is_trimmed_stderr
    (params : DumpSyntaxTreeParams) (cfg : Option String) (output : ProcessOutput) :
    (∀ t, dump_syntax_tree params cfg output = .ok t → t = rust_trim output.stderr) ∧
    ((∃ t, dump_syntax_tree params cfg output = .ok t) ↔
      run_ast_grep "run" ["--pattern", params.code, "--lang", params.language,
        "--debug-query=" ++ params.format] cfg output =
        .ok ⟨output.stdout, output.stderr⟩) := by
  cases hro : run_ast_grep "run" ["--pattern", params.code, "--lang", params.language,
      "--debug-query=" ++ params.format] cfg output with
  | ok r =>
    have hr : r = ⟨output.stdout, output.stderr⟩ := run_ast_grep_ok_eq hro
    subst hr
    have hd : dump_syntax_tree params cfg output = .ok (rust_trim output.stderr) :=
      dump_syntax_tree_eq_ok params cfg output ⟨output.stdout, output.stderr⟩ hro
    constructor
    · intro t ht
      rw [hd] at ht
      injection ht with ht
      exact ht.symm
    · exact ⟨fun _ => rfl, fun _ => ⟨rust_trim output.stderr, hd⟩⟩
  | failed cmd code stderr =>
    have hd : dump_syntax_tree params cfg output =
        .err ⟨0, command_error_message cmd code stderr⟩ :=
      dump_syntax_tree_eq_failed params cfg output cmd code stderr hro
    constructor
    · intro t ht
      rw [hd] at ht
      exact absurd ht (by simp)
    · constructor
      · rintro ⟨t, ht⟩
        rw [hd] at ht
        exact absurd ht (by simp)
      · intro hco
        exact absurd hco (by simp)

/-- Witness for C5: a concrete successful call whose payload is the
trimmed stderr. -/
theorem dump_syntax_tree_payload_is_trimmed_stderr_witness :
    ("TREE" : String) = rust_trim " TREE \n" :=
  (dump_syntax_tree_payload_is_trimmed_stderr ⟨"x", "python", "cst"⟩ none
    ⟨"", " TREE \n", some 0⟩).1 "TREE" (by decide)

/-! ## Claim C6 -/

theorem test_match_code_rule_eq_ok (params : TestMatchCodeRuleParams)
    (cfg : Option String) (output : ProcessOutput) (r : CommandResult)
    (hro : run_ast_grep "scan" ["--inline-rules", params.yaml, "--json", "--stdin"]
      cfg output = .ok r) :
    test_match_code_rule params cfg output =
      (if ((from_str_vec r.stdout).getD []).isEmpty then
        .err ⟨-32603, semantic_empty_message⟩
      else
        .ok (to_string_pretty (.arr ((from_str_vec r.stdout).getD [])))) := by
  unfold test_match_code_rule
  rw [hro]

theorem test_match_code_rule_eq_failed (params : TestMatchCodeRuleParams)
    (cfg : Option String) (output : ProcessOutput)
    (cmd : List String) (code : Int) (stderr : String)
    (hro : run_ast_grep "scan" ["--inline-rules", params.yaml, "--json", "--stdin"]
      cfg output = .failed cmd code stderr) :
    test_match_code_rule params cfg output =
      .err ⟨0, command_error_message cmd code stderr⟩ := by
  unfold test_match_code_rule
  rw [hro]

/-- C6: when `test_match_code_rule`'s classifier invocation succeeds,
stdout is parsed as a match array with parse failures degraded to the
empty array; an empty resulting array yields a failure with code -32603
(distinct from the classifier failures' code 0) whose message carries the
`stopBy: end` remediation hint; success never carries an empty match
array. -/
theorem test_match_code_rule_empty_result_semantics
    (params : TestMatchCodeRuleParams) (cfg : Option String) (output : ProcessOutput) :
    (run_ast_grep "scan" ["--inline-rules", params.yaml, "--json", "--stdin"] cfg output =
        .ok ⟨output.stdout, output.stderr⟩ →
      from_str_vec output.stdout = none →
      test_match_code_rule params cfg output = .err ⟨-32603, semantic_empty_message⟩) ∧
    (run_ast_grep "scan" ["--inline-rules", params.yaml, "--json", "--stdin"] cfg output =
        .ok ⟨output.stdout, output.stderr⟩ →
      from_str_vec output.stdout = some [] →
      test_match_code_rule params cfg output = .err ⟨-32603, semantic_empty_message⟩) ∧
    ("stopBy: end".data <:+: semantic_empty_message.data) ∧
    (∀ cmd code stderr,
      run_ast_grep "scan" ["--inline-rules", params.yaml, "--json", "--stdin"] cfg output =
          .failed cmd code stderr →
      test_match_code_rule params cfg output =
        .err ⟨0, command_error_message cmd code stderr⟩) ∧
    ((-32603 : Int) ≠ 0) ∧
    (∀ t, test_match_code_rule params cfg output = .ok t →
      (from_str_vec output.stdout).getD [] ≠ [] ∧
      t = to_string_pretty (.arr ((from_str_vec output.stdout).getD []))) := by
  refine ⟨?_, ?_, by decide, ?_, by decide, ?_⟩
  · intro hro hparse
    rw [test_match_code_rule_eq_ok params cfg output ⟨output.stdout, output.stderr⟩ hro]
    dsimp only
    have hempty : ((from_str_vec output.stdout).getD []).isEmpty = true := by
      rw [hparse]
      rfl
    rw [if_pos hempty]
  · intro hro hparse
    rw [test_match_code_rule_eq_ok params cfg output ⟨output.stdout, output.stderr⟩ hro]
    dsimp only
    have hempty : ((from_str_vec output.stdout).getD []).isEmpty = true := by
      rw [hparse]
      rfl
    rw [if_pos hempty]
  · intro cmd code stderr hro
    exact test_match_code_rule_eq_failed params cfg output cmd code stderr hro
  · intro t ht
    cases hro : run_ast_grep "scan" ["--inline-rules", params.yaml, "--json", "--stdin"]
        cfg output with
    | failed cmd code stderr =>
      rw [test_match_code_rule_eq_failed params cfg output cmd code stderr hro] at ht
      exact absurd ht (by simp)
    | ok r =>
      have hr : r = ⟨output.stdout, output.stderr⟩ := run_ast_grep_ok_eq hro
      subst hr
      rw [test_match_code_rule_eq_ok params cfg output ⟨output.stdout, output.stderr⟩ hro] at ht
      dsimp only at ht
      by_cases he : ((from_str_vec output.stdout).getD []).isEmpty = true
      · rw [if_pos he] at ht
        exact absurd ht (by simp)
      · rw [if_neg he] at ht
        injection ht with ht
        refine ⟨fun hnil => he (by rw [hnil]; rfl), ht.symm⟩

/-- Witness for C6: a classifier-successful call whose stdout does not
parse as a match array yields the semantic-empty failure. -/
theorem test_match_code_rule_empty_result_semantics_witness :
    test_match_code_rule ⟨"code", "id: x"⟩ none ⟨"not json", "", some 0⟩ =
      .err ⟨-32603, semantic_empty_message⟩ :=
  (test_match_code_rule_empty_result_semantics ⟨"code", "id: x"⟩ none
    ⟨"not json", "", some 0⟩).1 (by decide) (by decide)

/-! ## Claim C7 -/

/-- C7: for both search operations the assembled external-tool argument
list always contains the `--json` flag and has the project folder as its
last element; it contains the `--lang` language flag exactly when the
caller supplied a non-empty language (and `find_code_by_rule`, which has
no language parameter, never passes the flag).  The disequality
hypotheses rule out caller-supplied values that happen to equal the flag
text itself. -/
theorem search_args_shape
    (pf : FindCodeParams) (pr : FindCodeByRuleParams) (cfg : Option String)
    (hp1 : pf.pattern ≠ "--lang") (hp2 : pf.project_folder ≠ "--lang")
    (hr1 : pr.yaml ≠ "--lang") (hr2 : pr.project_folder ≠ "--lang")
    (hcfg : ∀ c, cfg = some c → c ≠ "--lang") :
    ("--json" ∈ run_ast_grep_args "run" (find_code_args pf) cfg ∧
      "--json" ∈ run_ast_grep_args "scan" (find_code_by_rule_args pr) cfg) ∧
    ((run_ast_grep_args "run" (find_code_args pf) cfg).getLast? =
        some pf.project_folder ∧
      (run_ast_grep_args "scan" (find_code_by_rule_args pr) cfg).getLast? =
        some pr.project_folder) ∧
    ("--lang" ∈ run_ast_grep_args "run" (find_code_args pf) cfg ↔
      rust_is_empty pf.language = false) ∧
    "--lang" ∉ run_ast_grep_args "scan" (find_code_by_rule_args pr) cfg := by
  refine ⟨⟨?_, ?_⟩, ⟨?_, ?_⟩, ?_, ?_⟩
  · rcases cfg with _ | c <;>
      rcases hb : rust_is_empty pf.language <;>
        simp [run_ast_grep_args, find_code_args, hb]
  · rcases cfg with _ | c <;> simp [run_ast_grep_args, find_code_by_rule_args]
  · rcases cfg with _ | c <;>
      rcases hb : rust_is_empty pf.language <;>
        simp [run_ast_grep_args, find_code_args, hb]
  · rcases cfg with _ | c <;> simp [run_ast_grep_args, find_code_by_rule_args]
  · rcases cfg with _ | c
    · rcases hb : rust_is_empty pf.language
      · simp [run_ast_grep_args, find_code_args, hb]
      · simp only [run_ast_grep_args, find_code_args, hb, if_true]
        simp
        exact ⟨Ne.symm hp1, Ne.symm hp2⟩
    · have hcc : ("--lang" : String) ≠ c := Ne.symm (hcfg c rfl)
      rcases hb : rust_is_empty pf.language
      · simp [run_ast_grep_args, find_code_args, hb]
      · simp only [run_ast_grep_args, find_code_args, hb, if_true]
        simp
        exact ⟨hcc, Ne.symm hp1, Ne.symm hp2⟩
  · rcases cfg with _ | c
    · simp [run_ast_grep_args, find_code_by_rule_args, Ne.symm hr1, Ne.symm hr2]
    · have hcc : ("--lang" : String) ≠ c := Ne.symm (hcfg c rfl)
      simp [run_ast_grep_args, find_code_by_rule_args, Ne.symm hr1, Ne.symm hr2, hcc]

/-- Witness for C7 at concrete parameters (language supplied for
`find_code`, config path present). -/
theorem search_args_shape_witness :
    ("--json" ∈ run_ast_grep_args "run"
        (find_code_args ⟨"/proj", "class $N", "py", 5, "text"⟩) (some "/cfg.yml") ∧
      "--json" ∈ run_ast_grep_args "scan"
        (find_code_by_rule_args ⟨"/proj", "id: x", 0, "json"⟩) (some "/cfg.yml")) ∧
    ((run_ast_grep_args "run"
        (find_code_args ⟨"/proj", "class $N", "py", 5, "text"⟩) (some "/cfg.yml")).getLast? =
        some (FindCodeParams.mk "/proj" "class $N" "py" 5 "text").project_folder ∧
      (run_ast_grep_args "scan"
        (find_code_by_rule_args ⟨"/proj", "id: x", 0, "json"⟩) (some "/cfg.yml")).getLast? =
        some (FindCodeByRuleParams.mk "/proj" "id: x" 0 "json").project_folder) ∧
    ("--lang" ∈ run_ast_grep_args "run"
        (find_code_args ⟨"/proj", "class $N", "py", 5, "text"⟩) (some "/cfg.yml") ↔
      rust_is_empty (FindCodeParams.mk "/proj" "class $N" "py" 5 "text").language = false) ∧
    "--lang" ∉ run_ast_grep_args "scan"
        (find_code_by_rule_args ⟨"/proj", "id: x", 0, "json"⟩) (some "/cfg.yml") :=
  search_args_shape ⟨"/proj", "class $N", "py", 5, "text"⟩ ⟨"/proj", "id: x", 0, "json"⟩
    (some "/cfg.yml") (by decide) (by decide) (by decide) (by decide)
    (by intro c h; injection h with h; subst h; decide)

/-! ## Search plumbing lemmas -/

theorem find_code_eq_ok (params : FindCodeParams) (cfg : Option String)
    (output : ProcessOutput) (r : CommandResult)
    (hvalid : ¬ (params.output_format ≠ "text" ∧ params.output_format ≠ "json"))
    (hro : run_command (run_ast_grep_args "run" (find_code_args params) cfg) output = .ok r) :
    find_code params cfg output =
      (search_post_process params.max_results params.output_format
          (parse_stdout_matches r.stdout),
        [run_ast_grep_args "run" (find_code_args params) cfg]) := by
  unfold find_code
  rw [if_neg hvalid, hro]

theorem find_code_by_rule_eq_ok (params : FindCodeByRuleParams) (cfg : Option String)
    (output : ProcessOutput) (r : CommandResult)
    (hvalid : ¬ (params.output_format ≠ "text" ∧ params.output_format ≠ "json"))
    (hro : run_command (run_ast_grep_args "scan" (find_code_by_rule_args params) cfg)
      output = .ok r) :
    find_code_by_rule params cfg output =
      (search_post_process params.max_results params.output_format
          (parse_stdout_matches r.stdout),
        [run_ast_grep_args "scan" (find_code_by_rule_args params) cfg]) := by
  unfold find_code_by_rule
  rw [if_neg hvalid, hro]

theorem truncate_matches_of_trunc {max_results : Int} {ms : List Json}
    (h : max_results > 0 ∧ ms.length > max_results.toNat) :
    truncate_matches max_results ms = ms.take max_results.toNat := by
  unfold truncate_matches
  rw [if_pos h]

theorem truncate_matches_of_not_trunc {max_results : Int} {ms : List Json}
    (h : ¬ (max_results > 0 ∧ ms.length > max_results.toNat)) :
    truncate_matches max_results ms = ms := by
  unfold truncate_matches
  rw [if_neg h]

theorem search_post_process_json_eq (max_results : Int) (ms : List Json) :
    search_post_process max_results "json" ms =
      .ok (to_string_pretty (.arr (truncate_matches max_results ms))) := by
  unfold search_post_process
  rw [if_neg (by decide : ¬ ("json" : String) = "text")]

theorem search_post_process_text_empty_eq (max_results : Int) (ms : List Json)
    (h : truncate_matches max_results ms = []) :
    search_post_process max_results "text" ms = .ok "No matches found" := by
  unfold search_post_process
  rw [if_pos rfl, if_pos (by rw [h]; rfl)]

theorem search_post_process_text_trunc_eq (max_results : Int) (ms : List Json)
    (h : max_results > 0 ∧ ms.length > max_results.toNat) :
    search_post_process max_results "text" ms =
      .ok ("Found " ++ toString ms.length ++ " matches (showing first " ++
        toString max_results ++ " of " ++ toString ms.length ++ "):\n\n" ++
        format_matches_as_text (ms.take max_results.toNat)) := by
  unfold search_post_process search_header
  rw [if_pos rfl, truncate_matches_of_trunc h]
  have hne : ¬ ((ms.take max_results.toNat).isEmpty = true) := by
    intro hh
    have hnil : ms.take max_results.toNat = [] := by
      cases htake : ms.take max_results.toNat with
      | nil => rfl
      | cons a l =>
        rw [htake] at hh
        exact absurd hh (by simp)
    have hlen := congrArg List.length hnil
    simp only [List.length_take, List.length_nil] at hlen
    have h1 := h.1
    have h2 := h.2
    omega
  rw [if_neg hne, if_pos h]
  simp [String.append_assoc]

theorem search_post_process_text_notrunc_eq (max_results : Int) (ms : List Json)
    (hntr : ¬ (max_results > 0 ∧ ms.length > max_results.toNat)) (hne : ms ≠ []) :
    search_post_process max_results "text" ms =
      .ok ("Found " ++ toString ms.length ++ " matches:\n\n" ++
        format_matches_as_text ms) := by
  unfold search_post_process search_header
  rw [if_pos rfl, truncate_matches_of_not_trunc hntr]
  have hb : ¬ (ms.isEmpty = true) := by
    cases ms with
    | nil => exact absurd rfl hne
    | cons a l => simp
  rw [if_neg hb, if_neg hntr]
  simp [String.append_assoc]

/-! ## Claim C2 -/

/-- C2 (amended): for every match array produced by a classifier-successful
search call, with total `n` and positive cap `c`: if `n > c` both
operations return exactly the first `c` records in original order (fed to
the formatter in text mode, pretty-printed in json mode) under the header
`Found n matches (showing first c of n)`; if `n ≤ c` or no positive cap is
given, the full array is returned, with header `Found n matches` when the
array is non-empty; an empty array in text mode yields the fixed message
`No matches found` instead of a header. -/
theorem search_truncation_and_header
    (pf : FindCodeParams) (pr : FindCodeByRuleParams) (cfg : Option String)
    (o1 o2 : ProcessOutput) (r1 r2 : CommandResult) (ms1 ms2 : List Json)
    (hro1 : run_command (run_ast_grep_args "run" (find_code_args pf) cfg) o1 = .ok r1)
    (hm1 : parse_stdout_matches r1.stdout = ms1)
    (hro2 : run_command (run_ast_grep_args "scan" (find_code_by_rule_args pr) cfg) o2 = .ok r2)
    (hm2 : parse_stdout_matches r2.stdout = ms2) :
    ((pf.max_results > 0 ∧ ms1.length > pf.max_results.toNat) →
      (pf.output_format = "text" →
        (find_code pf cfg o1).1 = .ok ("Found " ++ toString ms1.length ++
          " matches (showing first " ++ toString pf.max_results ++ " of " ++
          toString ms1.length ++ "):\n\n" ++
          format_matches_as_text (ms1.take pf.max_results.toNat))) ∧
      (pf.output_format = "json" →
        (find_code pf cfg o1).1 =
          .ok (to_string_pretty (.arr (ms1.take pf.max_results.toNat))))) ∧
    (¬ (pf.max_results > 0 ∧ ms1.length > pf.max_results.toNat) →
      (pf.output_format = "text" → ms1 ≠ [] →
        (find_code pf cfg o1).1 = .ok ("Found " ++ toString ms1.length ++
          " matches:\n\n" ++ format_matches_as_text ms1)) ∧
      (pf.output_format = "json" →
        (find_code pf cfg o1).1 = .ok (to_string_pretty (.arr ms1))) ∧
      (pf.output_format = "text" → ms1 = [] →
        (find_code pf cfg o1).1 = .ok "No matches found")) ∧
    ((pr.max_results > 0 ∧ ms2.length > pr.max_results.toNat) →
      (pr.output_format = "text" →
        (find_code_by_rule pr cfg o2).1 = .ok ("Found " ++ toString ms2.length ++
          " matches (showing first " ++ toString pr.max_results ++ " of " ++
          toString ms2.length ++ "):\n\n" ++
          format_matches_as_text (ms2.take pr.max_results.toNat))) ∧
      (pr.output_format = "json" →
        (find_code_by_rule pr cfg o2).1 =
          .ok (to_string_pretty (.arr (ms2.take pr.max_results.toNat))))) ∧
    (¬ (pr.max_results > 0 ∧ ms2.length > pr.max_results.toNat) →
      (pr.output_format = "text" → ms2 ≠ [] →
        (find_code_by_rule pr cfg o2).1 = .ok ("Found " ++ toString ms2.length ++
          " matches:\n\n" ++ format_matches_as_text ms2)) ∧
      (pr.output_format = "json" →
        (find_code_by_rule pr cfg o2).1 = .ok (to_string_pretty (.arr ms2))) ∧
      (pr.output_format = "text" → ms2 = [] →
        (find_code_by_rule pr cfg o2).1 = .ok "No matches found")) := by
  refine ⟨fun htr => ⟨fun hfmt => ?_, fun hfmt => ?_⟩,
    fun hntr => ⟨fun hfmt hne => ?_, fun hfmt => ?_, fun hfmt hnil => ?_⟩,
    fun htr => ⟨fun hfmt => ?_, fun hfmt => ?_⟩,
    fun hntr => ⟨fun hfmt hne => ?_, fun hfmt => ?_, fun hfmt hnil => ?_⟩⟩
  · rw [find_code_eq_ok pf cfg o1 r1 (fun hh => hh.1 hfmt) hro1]
    dsimp only
    rw [hm1, hfmt, search_post_process_text_trunc_eq pf.max_results ms1 htr]
  · rw [find_code_eq_ok pf cfg o1 r1 (fun hh => hh.2 hfmt) hro1]
    dsimp only
    rw [hm1, hfmt, search_post_process_json_eq, truncate_matches_of_trunc htr]
  · rw [find_code_eq_ok pf cfg o1 r1 (fun hh => hh.1 hfmt) hro1]
    dsimp only
    rw [hm1, hfmt, search_post_process_text_notrunc_eq pf.max_results ms1 hntr hne]
  · rw [find_code_eq_ok pf cfg o1 r1 (fun hh => hh.2 hfmt) hro1]
    dsimp only
    rw [hm1, hfmt, search_post_process_json_eq, truncate_matches_of_not_trunc hntr]
  · rw [find_code_eq_ok pf cfg o1 r1 (fun hh => hh.1 hfmt) hro1]
    dsimp only
    rw [hm1, hfmt, search_post_process_text_empty_eq pf.max_results ms1
      (by rw [truncate_matches_of_not_trunc hntr, hnil])]
  · rw [find_code_by_rule_eq_ok pr cfg o2 r2 (fun hh => hh.1 hfmt) hro2]
    dsimp only
    rw [hm2, hfmt, search_post_process_text_trunc_eq pr.max_results ms2 htr]
  · rw [find_code_by_rule_eq_ok pr cfg o2 r2 (fun hh => hh.2 hfmt) hro2]
    dsimp only
    rw [hm2, hfmt, search_post_process_json_eq, truncate_matches_of_trunc htr]
  · rw [find_code_by_rule_eq_ok pr cfg o2 r2 (fun hh => hh.1 hfmt) hro2]
    dsimp only
    rw [hm2, hfmt, search_post_process_text_notrunc_eq pr.max_results ms2 hntr hne]
  · rw [find_code_by_rule_eq_ok pr cfg o2 r2 (fun hh => hh.2 hfmt) hro2]
    dsimp only
    rw [hm2, hfmt, search_post_process_json_eq, truncate_matches_of_not_trunc hntr]
  · rw [find_code_by_rule_eq_ok pr cfg o2 r2 (fun hh => hh.1 hfmt) hro2]
    dsimp only
    rw [hm2, hfmt, search_post_process_text_empty_eq pr.max_results ms2
      (by rw [truncate_matches_of_not_trunc hntr, hnil])]

/-- Counterexample to C2 as stated: an empty match array in text mode
yields the fixed message `No matches found`, not a `Found 0 matches`
header. -/
theorem search_header_counterexample :
    (find_code ⟨"/p", "def $NAME", "", 0, "text"⟩ none ⟨"[]", "", some 0⟩).1 =
      .ok "No matches found" ∧
    (find_code ⟨"/p", "def $NAME", "", 0, "text"⟩ none ⟨"[]", "", some 0⟩).1 ≠
      .ok ("Found 0 matches:\n\n" ++ format_matches_as_text []) ∧
    ¬ ("Found 0 matches".data <:+: "No matches found".data) :=
  ⟨by decide, by decide, by decide⟩

/-- Witness for C2 at a 10-element match array with cap 3 in text mode. -/
theorem search_truncation_and_header_witness :
    (find_code ⟨"/p", "def $NAME", "", 3, "text"⟩ none
        ⟨"[0,1,2,3,4,5,6,7,8,9]", "", some 0⟩).1 =
      .ok ("Found " ++ toString (List.length [Json.num 0, Json.num 1, Json.num 2,
          Json.num 3, Json.num 4, Json.num 5, Json.num 6, Json.num 7, Json.num 8,
          Json.num 9]) ++
        " matches (showing first " ++ toString (3 : Int) ++ " of " ++
        toString (List.length [Json.num 0, Json.num 1, Json.num 2, Json.num 3,
          Json.num 4, Json.num 5, Json.num 6, Json.num 7, Json.num 8, Json.num 9]) ++
        "):\n\n" ++
        format_matches_as_text ((List.take (Int.toNat 3)
          [Json.num 0, Json.num 1, Json.num 2, Json.num 3, Json.num 4, Json.num 5,
            Json.num 6, Json.num 7, Json.num 8, Json.num 9]))) :=
  ((search_truncation_and_header ⟨"/p", "def $NAME", "", 3, "text"⟩
      ⟨"/p", "id: x", 0, "json"⟩ none
      ⟨"[0,1,2,3,4,5,6,7,8,9]", "", some 0⟩ ⟨"[]", "", some 0⟩
      ⟨"[0,1,2,3,4,5,6,7,8,9]", ""⟩ ⟨"[]", ""⟩
      [Json.num 0, Json.num 1, Json.num 2, Json.num 3, Json.num 4, Json.num 5,
        Json.num 6, Json.num 7, Json.num 8, Json.num 9] []
      (by decide) (by decide) (by decide) (by decide)).1
    (by decide)).1 rfl

/-! ## Claim C8 -/

theorem eq_empty_of_rust_is_empty {s : String} (h : rust_is_empty s = true) : s = "" := by
  obtain ⟨data⟩ := s
  cases data with
  | nil => rfl
  | cons a l => exact absurd h (by simp [rust_is_empty])

/-- C8: with output format `json` and no effective truncation, the payload
of `find_code` is the pretty-printed rendering of exactly the JSON match
array the external tool emitted on stdout — the same array values,
unmodified, with no headers added. -/
theorem find_code_json_full_fidelity
    (pf : FindCodeParams) (cfg : Option String) (output : ProcessOutput)
    (r : CommandResult) (ms : List Json)
    (hfmt : pf.output_format = "json")
    (hro : run_command (run_ast_grep_args "run" (find_code_args pf) cfg) output = .ok r)
    (hparse : from_str (rust_trim r.stdout) = some (.arr ms))
    (hntr : ¬ (pf.max_results > 0 ∧ ms.length > pf.max_results.toNat)) :
    (find_code pf cfg output).1 = .ok (to_string_pretty (.arr ms)) := by
  have hvec : from_str_vec (rust_trim r.stdout) = some ms := by
    unfold from_str_vec
    rw [hparse]
  have hne : ¬ (rust_is_empty (rust_trim r.stdout) = true) := by
    intro hb
    have he := eq_empty_of_rust_is_empty hb
    rw [he] at hparse
    rw [show from_str "" = none from rfl] at hparse
    exact Option.noConfusion hparse
  have hm : parse_stdout_matches r.stdout = ms := by
    unfold parse_stdout_matches
    rw [if_neg hne, hvec]
    rfl
  rw [find_code_eq_ok pf cfg output r (fun hh => hh.2 hfmt) hro]
  dsimp only
  rw [hm, hfmt, search_post_process_json_eq, truncate_matches_of_not_trunc hntr]

set_option maxRecDepth 8000 in
/-- Witness for C8: the specification scenario, where the external tool
emits one match record for `def foo():` in `a.py`; the payload is the
pretty-printed rendering of that exact record, byte for byte. -/
theorem find_code_json_full_fidelity_witness :
    (find_code ⟨"/p", "def $NAME", "", 0, "json"⟩ none
        ⟨"[\x7b\"file\":\"a.py\",\"range\":\x7b\"start\":\x7b\"line\":0,\"column\":0\x7d,\"end\":\x7b\"line\":0,\"column\":9\x7d\x7d,\"text\":\"def foo():\"\x7d]",
          "", some 0⟩).1 =
      .ok (to_string_pretty (.arr [Json.obj [("file", Json.str "a.py"),
        ("range", Json.obj [("start", Json.obj [("line", Json.num 0), ("column", Json.num 0)]),
          ("end", Json.obj [("line", Json.num 0), ("column", Json.num 9)])]),
        ("text", Json.str "def foo():")]])) ∧
    to_string_pretty (.arr [Json.obj [("file", Json.str "a.py"),
        ("range", Json.obj [("start", Json.obj [("line", Json.num 0), ("column", Json.num 0)]),
          ("end", Json.obj [("line", Json.num 0), ("column", Json.num 9)])]),
        ("text", Json.str "def foo():")]]) =
      "[\n  \x7b\n    \"file\": \"a.py\",\n    \"range\": \x7b\n      \"start\": \x7b\n        \"line\": 0,\n        \"column\": 0\n      \x7d,\n      \"end\": \x7b\n        \"line\": 0,\n        \"column\": 9\n      \x7d\n    \x7d,\n    \"text\": \"def foo():\"\n  \x7d\n]" :=
  ⟨find_code_json_full_fidelity ⟨"/p", "def $NAME", "", 0, "json"⟩ none
      ⟨"[\x7b\"file\":\"a.py\",\"range\":\x7b\"start\":\x7b\"line\":0,\"column\":0\x7d,\"end\":\x7b\"line\":0,\"column\":9\x7d\x7d,\"text\":\"def foo():\"\x7d]",
        "", some 0⟩
      ⟨"[\x7b\"file\":\"a.py\",\"range\":\x7b\"start\":\x7b\"line\":0,\"column\":0\x7d,\"end\":\x7b\"line\":0,\"column\":9\x7d\x7d,\"text\":\"def foo():\"\x7d]",
        ""⟩
      [Json.obj [("file", Json.str "a.py"),
        ("range", Json.obj [("start", Json.obj [("line", Json.num 0), ("column", Json.num 0)]),
          ("end", Json.obj [("line", Json.num 0), ("column", Json.num 9)])]),
        ("text", Json.str "def foo():")]]
      rfl (by decide) (by decide) (by decide),
    by decide⟩
